import Mathlib

/-!
Verification of the screenshot classifier and driver in `find-screenshots-cli`
(`src/main.py`).  The classifier `is_screenshot` is embedded shallowly: a path
is modelled by its final component (`PyPath.name`), the result of
`PIL.Image.open` together with all metadata/pixel reads is modelled by an
`Option ImageData` (with `none` standing for any failure raised while opening
or reading the file), and aspect ratios are computed exactly in `ℚ`.
The driver `main` is embedded as a pure function over an abstract `World`
describing the file system.
-/

/-- A `pathlib.Path`, reduced to what the program reads from it: the final
component `name` (from which `suffix` is derived). -/
structure PyPath where
  name : String
deriving DecidableEq

/-- Index of the last occurrence of a character in a list (Python `str.rfind`),
`none` when absent. -/
def lastIdxOf (c : Char) : List Char → Option Nat
  | [] => none
  | a :: as =>
    match lastIdxOf c as with
    | some i => some (i + 1)
    | none => if a == c then some 0 else none

/-- `pathlib.PurePath.suffix`: `name[i:]` where `i = name.rfind(chr(46))`,
provided `0 < i < len(name) - 1`, else the empty string. -/
def pathSuffix (name : String) : String :=
  match lastIdxOf '.' name.data with
  | none => ""
  | some i => if 0 < i && i < name.data.length - 1
              then String.mk (name.data.drop i) else ""

/-- Python `str.lower`, on the underlying char list (`Char.toLower`, like the
program's inputs, is ASCII-lowering on the characters that matter here). -/
def strLower (s : String) : String := String.mk (s.data.map Char.toLower)

/-- Python's substring operator `needle in hay`, on char lists. -/
def subIn (needle : List Char) : List Char → Bool
  | [] => needle.isEmpty
  | b :: bs => needle.isPrefixOf (b :: bs) || subIn needle bs

/-- Python's substring operator on strings: `strIn needle hay` is
`needle in hay`. -/
def strIn (needle hay : String) : Bool :=
  subIn needle.data hay.data

/-- `IMAGE_EXTENSIONS` from `src/main.py`. -/
def IMAGE_EXTENSIONS : List String := [".png", ".jpg", ".jpeg", ".heic", ".webp"]

/-- `SCREENSHOT_KEYWORDS` from `src/main.py`. -/
def SCREENSHOT_KEYWORDS : List String :=
  ["screenshot", "截屏", "屏幕截图", "screen_shot", "captures"]

/-- `SCREENSHOT_RATIO_RANGES` from `src/main.py`, as exact rationals. -/
def SCREENSHOT_RATIO_RANGES : List (ℚ × ℚ) :=
  [(1.30, 1.36), (1.75, 1.80), (1.95, 2.40)]

/-- The `photo_tags` set from `is_screenshot`:
33434 ExposureTime, 33437 FNumber, 34855 ISOSpeedRatings. -/
def photo_tags : List Nat := [33434, 33437, 34855]

/-- What the program reads from a successfully opened image: the EXIF tag keys
returned by `img._getexif()` (`none` models a `None` result) and the pixel
size `img.size`. -/
structure ImageData where
  exifTags : Option (List Nat)
  width : Nat
  height : Nat
deriving DecidableEq

/-- Step 0 of `is_screenshot`: `file_path.suffix.lower() in IMAGE_EXTENSIONS`. -/
def extOk (p : PyPath) : Bool :=
  IMAGE_EXTENSIONS.contains (strLower (pathSuffix p.name))

/-- Step 1 of `is_screenshot`: some keyword of `SCREENSHOT_KEYWORDS` occurs in
`file_path.name.lower()`. -/
def keywordHit (p : PyPath) : Bool :=
  SCREENSHOT_KEYWORDS.any (fun k => strIn k (strLower p.name))

/-- Step 2A of `is_screenshot`: `exif` is truthy and contains one of the
`photo_tags`. -/
def exifDisqualified : Option (List Nat) → Bool
  | none => false
  | some tags => photo_tags.any (fun t => tags.contains t)

/-- The ratio `max(w, h) / min(w, h)` computed in step 2B of `is_screenshot`,
as an exact rational. -/
def ratioOf (w h : Nat) : ℚ :=
  ((max w h : Nat) : ℚ) / ((min w h : Nat) : ℚ)

/-- Step 2B of `is_screenshot`: the ratio lies in one of the inclusive
`SCREENSHOT_RATIO_RANGES`. -/
def ratioMatch (w h : Nat) : Bool :=
  SCREENSHOT_RATIO_RANGES.any (fun r => decide (r.1 ≤ ratioOf w h ∧ ratioOf w h ≤ r.2))

/-- `is_screenshot` from `src/main.py`.  `openResult` is the outcome of
`Image.open` and the subsequent metadata/pixel reads: `some img` when they
succeed, `none` when any exception is raised (all handlers return `False`). -/
def is_screenshot (p : PyPath) (openResult : Option ImageData) : Bool :=
  if !extOk p then false
  else if keywordHit p then true
  else
    match openResult with
    | none => false
    | some img =>
      if exifDisqualified img.exifTags then false
      else if img.width == 0 || img.height == 0 then false
      else ratioMatch img.width img.height

/-! ## Driver model (`main` in `src/main.py`)

The driver is embedded as a pure function over a `World` describing the file
system: whether the root directory exists, the entries `rglob` yields, which
names already exist in the destination directory, and which transfers succeed
(`transferOk name = false` models `shutil.copy2`/`shutil.move` raising).
Console output is reduced to the `reportedError` flag; file-system effects are
recorded as a list of `FsAction`s in program order. -/

/-- A file-system entry as seen by `root_dir.rglob` in `main`. -/
structure FSFile where
  name : String
  isFile : Bool
  openResult : Option ImageData
deriving DecidableEq

/-- A recorded file-system effect of the driver. -/
inductive FsAction where
  | mkdirParents (dir : String)
  | copyFile (name : String) (dir : String)
  | moveFile (name : String) (dir : String)
  | skipExisting (name : String)
  | reportFailure (name : String)
deriving DecidableEq

/-- What `main` produces, observable from outside: the process exit code,
whether an error message was printed, the names classified, the names found,
and the file-system actions in order. -/
structure MainResult where
  exitCode : Nat
  reportedError : Bool
  classified : List String
  found : List String
  actions : List FsAction
deriving DecidableEq

/-- The abstract file system and environment `main` runs against. -/
structure World where
  rootExists : Bool
  entries : List FSFile
  destHas : String → Bool
  transferOk : String → Bool

/-- The filter on line 129 of `src/main.py`: regular files with a recognized
extension. -/
def imageFiles (entries : List FSFile) : List FSFile :=
  entries.filter (fun f => f.isFile && IMAGE_EXTENSIONS.contains (strLower (pathSuffix f.name)))

/-- The classification loop, lines 131–133: entries kept by `is_screenshot`. -/
def foundFiles (entries : List FSFile) : List FSFile :=
  (imageFiles entries).filter (fun f => is_screenshot ⟨f.name⟩ f.openResult)

/-- Destination resolution, lines 160–168: `if copy_to: … elif move_to: …`.
Returns the destination directory and whether the action is a copy.
(The flags are modelled as present or absent; Python would also treat an empty
string as absent.) -/
def resolveDest (copy_to move_to : Option String) : Option (String × Bool) :=
  match copy_to with
  | some d => some (d, true)
  | none =>
    match move_to with
    | some d => some (d, false)
    | none => none

/-- One iteration of the transfer loop, lines 174–186.  The state carries the
names this run has already placed in the destination (so a later file with the
same name sees `target.exists()`) and the actions so far.  A failed transfer
(`transferOk name = false`) appends a per-file failure report and leaves the
destination untouched. -/
def transferStep (w : World) (copyMode : Bool) (dir : String)
    (st : List String × List FsAction) (name : String) : List String × List FsAction :=
  if w.destHas name || st.1.contains name then
    (st.1, st.2 ++ [FsAction.skipExisting name])
  else if w.transferOk name then
    (name :: st.1,
     st.2 ++ [if copyMode then FsAction.copyFile name dir else FsAction.moveFile name dir])
  else
    (st.1, st.2 ++ [FsAction.reportFailure name])

/-- `main` from `src/main.py`, as a pure function of the `World`. -/
def runMain (w : World) (copy_to move_to : Option String) : MainResult :=
  if !w.rootExists then
    { exitCode := 1, reportedError := true, classified := [], found := [], actions := [] }
  else
    let image_files := imageFiles w.entries
    let found_files := foundFiles w.entries
    if found_files.isEmpty then
      { exitCode := 0, reportedError := false,
        classified := image_files.map (·.name), found := [], actions := [] }
    else
      match resolveDest copy_to move_to with
      | none =>
        { exitCode := 0, reportedError := false,
          classified := image_files.map (·.name),
          found := found_files.map (·.name), actions := [] }
      | some (dir, copyMode) =>
        let st := (found_files.map (·.name)).foldl (transferStep w copyMode dir)
          ([], [FsAction.mkdirParents dir])
        { exitCode := 0, reportedError := false,
          classified := image_files.map (·.name),
          found := found_files.map (·.name), actions := st.2 }

/-! ## Claims about the classifier -/

/-- C1, counterexample: the path `screenshot.txt` has a recognized keyword in
its base name, yet `is_screenshot` returns false whatever the open outcome —
the extension gate (line 55 of `src/main.py`) runs before the name check, so
the claim quantified over every path fails. -/
theorem c1_keyword_alone_insufficient :
    keywordHit ⟨"screenshot.txt"⟩ = true
    ∧ is_screenshot ⟨"screenshot.txt"⟩ none = false
    ∧ is_screenshot ⟨"screenshot.txt"⟩ (some ⟨none, 472, 1024⟩) = false :=
  ⟨by decide, by decide, by decide⟩

/-- C1, amended: for every path whose lower-cased extension is recognized and
whose lower-cased base name contains a recognized keyword, `is_screenshot`
returns true for every open outcome — image content, aspect ratio and EXIF
are never consulted, and a corrupt or unreadable file (`none`) changes
nothing. -/
theorem keyword_match_short_circuits (p : PyPath) (r : Option ImageData)
    (hext : extOk p = true) (hkw : keywordHit p = true) :
    is_screenshot p r = true := by
  simp [is_screenshot, hext, hkw]

/-- Witness for `keyword_match_short_circuits`: `Screenshot_20260130.png`,
unreadable (open fails), is still classified true. -/
theorem keyword_match_short_circuits_witness :
    extOk ⟨"Screenshot_20260130.png"⟩ = true
    ∧ keywordHit ⟨"Screenshot_20260130.png"⟩ = true
    ∧ is_screenshot ⟨"Screenshot_20260130.png"⟩ none = true :=
  ⟨by decide, by decide,
   keyword_match_short_circuits ⟨"Screenshot_20260130.png"⟩ none (by decide) (by decide)⟩

/-- C2: an openable image with recognized extension, no keyword in the name,
and an EXIF mapping containing any of ExposureTime (33434), FNumber (33437)
or ISOSpeedRatings (34855) is classified false, for every width and height —
the EXIF exclusion precedes the ratio check. -/
theorem exif_photo_tag_excludes (p : PyPath) (tags : List Nat) (w h : Nat)
    (hext : extOk p = true) (hkw : keywordHit p = false)
    (htag : 33434 ∈ tags ∨ 33437 ∈ tags ∨ 34855 ∈ tags) :
    is_screenshot p (some ⟨some tags, w, h⟩) = false := by
  have hd : exifDisqualified (some tags) = true := by
    have hex : ∃ t, t ∈ photo_tags ∧ tags.contains t = true := by
      rcases htag with h1 | h1 | h1
      · exact ⟨33434, by simp [photo_tags], List.elem_iff.mpr h1⟩
      · exact ⟨33437, by simp [photo_tags], List.elem_iff.mpr h1⟩
      · exact ⟨34855, by simp [photo_tags], List.elem_iff.mpr h1⟩
    simpa [exifDisqualified, List.any_eq_true] using hex
  simp [is_screenshot, hext, hkw, hd]

/-- Witness for `exif_photo_tag_excludes`: a photo with ExposureTime whose
size 472×1024 would otherwise fall in a recognized ratio range. -/
theorem exif_photo_tag_excludes_witness :
    extOk ⟨"IMG_1234.jpg"⟩ = true ∧ keywordHit ⟨"IMG_1234.jpg"⟩ = false
    ∧ is_screenshot ⟨"IMG_1234.jpg"⟩ (some ⟨some [33434, 271], 472, 1024⟩) = false :=
  ⟨by decide, by decide,
   exif_photo_tag_excludes ⟨"IMG_1234.jpg"⟩ [33434, 271] 472 1024 (by decide) (by decide)
     (Or.inl (by decide))⟩

/-- C3: in the content path (recognized extension, no keyword, no
disqualifying EXIF, nonzero sides), the verdict is true iff the exact ratio
`max(w,h)/min(w,h)` lies inside one of the inclusive ranges [1.30, 1.36],
[1.75, 1.80], [1.95, 2.40]. -/
theorem ratio_characterizes_verdict (p : PyPath) (e : Option (List Nat)) (w h : Nat)
    (hext : extOk p = true) (hkw : keywordHit p = false)
    (hexif : exifDisqualified e = false) (hw : w ≠ 0) (hh : h ≠ 0) :
    is_screenshot p (some ⟨e, w, h⟩) = true ↔
      ((1.30 : ℚ) ≤ ratioOf w h ∧ ratioOf w h ≤ 1.36)
      ∨ ((1.75 : ℚ) ≤ ratioOf w h ∧ ratioOf w h ≤ 1.80)
      ∨ ((1.95 : ℚ) ≤ ratioOf w h ∧ ratioOf w h ≤ 2.40) := by
  simp [is_screenshot, hext, hkw, hexif, hw, hh, ratioMatch, SCREENSHOT_RATIO_RANGES]

/-- Witness for `ratio_characterizes_verdict`: 472×1024 (ratio 128/59 ≈ 2.17)
with no EXIF is classified true. -/
theorem ratio_characterizes_verdict_witness :
    is_screenshot ⟨"img_random_name_001.png"⟩ (some ⟨none, 472, 1024⟩) = true :=
  (ratio_characterizes_verdict ⟨"img_random_name_001.png"⟩ none 472 1024
    (by decide) (by decide) (by decide) (by decide) (by decide)).mpr
    (Or.inr (Or.inr (by norm_num [ratioOf])))

/-- C4: a path whose lower-cased extension is not in `IMAGE_EXTENSIONS` is
classified false whatever the open outcome — the file is never inspected. -/
theorem unrecognized_extension_rejected (p : PyPath) (r : Option ImageData)
    (hext : extOk p = false) : is_screenshot p r = false := by
  simp [is_screenshot, hext]

/-- Witness for `unrecognized_extension_rejected`: `document.pdf`, even with a
decodable image of screenshot-like ratio behind it, is classified false. -/
theorem unrecognized_extension_rejected_witness :
    extOk ⟨"document.pdf"⟩ = false
    ∧ is_screenshot ⟨"document.pdf"⟩ (some ⟨none, 472, 1024⟩) = false :=
  ⟨by decide, unrecognized_extension_rejected ⟨"document.pdf"⟩ (some ⟨none, 472, 1024⟩) (by decide)⟩

/-- C5: `is_screenshot` is a total function, and when every attempt to open or
read the file fails (`openResult = none`, covering corrupt files, unsupported
formats, I/O errors and any other exception — all handlers in lines 94–98
return `False`), the verdict equals the pure name fast path: in particular,
every failure inside the content-inspection path resolves to false, and no
exception escapes. -/
theorem open_failure_resolves_to_false (p : PyPath) :
    is_screenshot p none = (extOk p && keywordHit p) := by
  cases h1 : extOk p <;> cases h2 : keywordHit p <;> simp [is_screenshot, h1, h2]

/-- C6: in the content path, a zero width or height yields the verdict false
(the guard on line 83 precedes the ratio computation, so the ratio is never
formed with a zero divisor). -/
theorem zero_side_rejected (p : PyPath) (e : Option (List Nat)) (w h : Nat)
    (hext : extOk p = true) (hkw : keywordHit p = false)
    (hexif : exifDisqualified e = false) (hz : w = 0 ∨ h = 0) :
    is_screenshot p (some ⟨e, w, h⟩) = false := by
  rcases hz with rfl | rfl <;> simp [is_screenshot, hext, hkw, hexif]

/-- Witness for `zero_side_rejected`: a degenerate 0×5 image. -/
theorem zero_side_rejected_witness :
    is_screenshot ⟨"img_zero.png"⟩ (some ⟨none, 0, 5⟩) = false :=
  zero_side_rejected ⟨"img_zero.png"⟩ none 0 5 (by decide) (by decide) (by decide) (Or.inl rfl)

/-! ## Claims about the driver -/

/-- Each transfer-loop iteration appends exactly one action, whatever the
outcome for the current file. -/
theorem transferStep_length (w : World) (cm : Bool) (dir : String)
    (st : List String × List FsAction) (name : String) :
    ((transferStep w cm dir st name).2).length = st.2.length + 1 := by
  unfold transferStep
  split
  · simp
  · split <;> simp

/-- The transfer loop appends exactly one action per processed name. -/
theorem transferFold_length (w : World) (cm : Bool) (dir : String) :
    ∀ (names : List String) (st : List String × List FsAction),
      ((names.foldl (transferStep w cm dir) st).2).length = st.2.length + names.length := by
  intro names
  induction names with
  | nil => intro st; simp
  | cons n ns ih =>
    intro st
    simp only [List.foldl_cons, List.length_cons]
    rw [ih, transferStep_length]
    omega

/-- Each transfer-loop iteration appends to the action log; it never erases
previous actions. -/
theorem transferStep_snd (w : World) (cm : Bool) (dir : String)
    (st : List String × List FsAction) (name : String) :
    ∃ a, (transferStep w cm dir st name).2 = st.2 ++ [a] := by
  unfold transferStep
  split
  · exact ⟨_, rfl⟩
  · split
    · exact ⟨_, rfl⟩
    · exact ⟨_, rfl⟩

/-- The transfer loop only extends the action log. -/
theorem transferFold_extends (w : World) (cm : Bool) (dir : String) :
    ∀ (names : List String) (st : List String × List FsAction),
      ∃ rest, ((names.foldl (transferStep w cm dir) st).2) = st.2 ++ rest := by
  intro names
  induction names with
  | nil => intro st; exact ⟨[], by simp⟩
  | cons n ns ih =>
    intro st
    simp only [List.foldl_cons]
    obtain ⟨rest, hrest⟩ := ih (transferStep w cm dir st n)
    obtain ⟨a, ha⟩ := transferStep_snd w cm dir st n
    exact ⟨a :: rest, by rw [hrest, ha, List.append_assoc]; rfl⟩

/-- In copy mode, the transfer loop never records a move. -/
theorem transferFold_no_move (w : World) (dir n d : String) :
    ∀ (names : List String) (st : List String × List FsAction),
      FsAction.moveFile n d ∉ st.2 →
      FsAction.moveFile n d ∉ (names.foldl (transferStep w true dir) st).2 := by
  intro names
  induction names with
  | nil => intro st h; simpa using h
  | cons x xs ih =>
    intro st h
    simp only [List.foldl_cons]
    apply ih
    unfold transferStep
    split
    · simp [h]
    · split
      · simp [h]
      · simp [h]

/-- C7: a nonexistent root directory makes `main` report the error and exit
with code 1, with no file scanned, classified, or acted on. -/
theorem missing_root_exits_one (w : World) (cto mto : Option String)
    (h : w.rootExists = false) :
    runMain w cto mto =
      { exitCode := 1, reportedError := true, classified := [], found := [], actions := [] } := by
  simp [runMain, h]

/-- Witness for `missing_root_exits_one`: a world with a screenshot under a
root that does not exist. -/
theorem missing_root_exits_one_witness :
    runMain ⟨false, [⟨"Screenshot_7.png", true, none⟩], fun _ => false, fun _ => true⟩
        (some "dest") none =
      { exitCode := 1, reportedError := true, classified := [], found := [], actions := [] } :=
  missing_root_exits_one ⟨false, [⟨"Screenshot_7.png", true, none⟩], fun _ => false, fun _ => true⟩
    (some "dest") none rfl

/-- C8: during the copy/move phase every matched file is processed — the
action log holds the directory creation plus exactly one entry per matched
file, so a per-file failure never aborts the batch — and a file whose name
already exists at the destination is skipped, leaving the destination state
unchanged. -/
theorem transfer_skips_and_never_aborts (w : World) (d : String) (mto : Option String)
    (hroot : w.rootExists = true) (hne : foundFiles w.entries ≠ []) :
    ((runMain w (some d) mto).actions).length = 1 + (foundFiles w.entries).length
    ∧ (∀ (st : List String × List FsAction) (name : String),
        (w.destHas name || st.1.contains name) = true →
        transferStep w true d st name = (st.1, st.2 ++ [FsAction.skipExisting name]))
    ∧ (∀ (st : List String × List FsAction) (name : String),
        (w.destHas name || st.1.contains name) = false → w.transferOk name = false →
        transferStep w true d st name = (st.1, st.2 ++ [FsAction.reportFailure name])) := by
  refine ⟨?_, ?_, ?_⟩
  · have hempty : (foundFiles w.entries).isEmpty = false := by
      simp [List.isEmpty_iff, hne]
    simp [runMain, hroot, hempty, resolveDest, transferFold_length, Nat.add_comm]
  · intro st name h
    unfold transferStep
    rw [if_pos h]
  · intro st name h1 h2
    unfold transferStep
    rw [if_neg (by rw [h1]; exact Bool.false_ne_true),
      if_neg (by rw [h2]; exact Bool.false_ne_true)]

/-- A world for the C8 witness: two matched screenshots, the first already at
the destination, the second failing to transfer. -/
def skipWorld : World :=
  ⟨true, [⟨"Screenshot_1.png", true, none⟩, ⟨"Screenshot_2.png", true, none⟩],
   fun n => n == "Screenshot_1.png", fun n => n == "Screenshot_1.png"⟩

/-- Witness for `transfer_skips_and_never_aborts`: both files are processed
(three actions: mkdir and one per file), the colliding name is skipped, and
the failing transfer is reported. -/
theorem transfer_skips_and_never_aborts_witness :
    ((runMain skipWorld (some "dest") none).actions).length
        = 1 + (foundFiles skipWorld.entries).length
    ∧ transferStep skipWorld true "dest" ([], []) "Screenshot_1.png"
        = ([], [] ++ [FsAction.skipExisting "Screenshot_1.png"])
    ∧ transferStep skipWorld true "dest" ([], []) "Screenshot_2.png"
        = ([], [] ++ [FsAction.reportFailure "Screenshot_2.png"]) :=
  ⟨(transfer_skips_and_never_aborts skipWorld "dest" none rfl (by decide)).1,
   (transfer_skips_and_never_aborts skipWorld "dest" none rfl (by decide)).2.1
     ([], []) "Screenshot_1.png" (by decide),
   (transfer_skips_and_never_aborts skipWorld "dest" none rfl (by decide)).2.2
     ([], []) "Screenshot_2.png" (by decide) (by decide)⟩

/-- A world for the C9 counterexample: the root exists and holds one image
file that is not a screenshot (unreadable, no keyword in the name). -/
def noMatchWorld : World :=
  ⟨true, [⟨"img_random_name_002.png", true, none⟩], fun _ => false, fun _ => true⟩

/-- C9, counterexample: with `--copy-to shots` supplied and no file matched,
`main` returns before the destination handling — the destination directory is
never created, although the claim requires its creation whenever the flag is
supplied. -/
theorem c9_no_mkdir_without_matches :
    FsAction.mkdirParents "shots" ∉ (runMain noMatchWorld (some "shots") none).actions
    ∧ (runMain noMatchWorld (some "shots") none).actions = [] :=
  ⟨by decide, by decide⟩

/-- C9, amended: when the root exists, at least one file matched, and a
destination was supplied via `--copy-to` or `--move-to`, the recursive
directory creation (`mkdir(parents=True, exist_ok=True)`) is the first
recorded action — it precedes every transfer. -/
theorem mkdir_precedes_transfers (w : World) (cto mto : Option String)
    (d : String) (cm : Bool)
    (hroot : w.rootExists = true) (hne : foundFiles w.entries ≠ [])
    (hdest : resolveDest cto mto = some (d, cm)) :
    ((runMain w cto mto).actions).head? = some (FsAction.mkdirParents d) := by
  have hempty : (foundFiles w.entries).isEmpty = false := by
    simp [List.isEmpty_iff, hne]
  obtain ⟨rest, hrest⟩ := transferFold_extends w cm d
    ((foundFiles w.entries).map (fun f => f.name)) ([], [FsAction.mkdirParents d])
  simp [runMain, hroot, hempty, hdest, hrest]

/-- A world for the C9 witness: one matched screenshot under an existing
root. -/
def oneShotWorld : World :=
  ⟨true, [⟨"Screenshot_1.png", true, none⟩], fun _ => false, fun _ => true⟩

/-- Witness for `mkdir_precedes_transfers`: the first action is the recursive
creation of the supplied destination. -/
theorem mkdir_precedes_transfers_witness :
    ((runMain oneShotWorld (some "shots") none).actions).head?
      = some (FsAction.mkdirParents "shots") :=
  mkdir_precedes_transfers oneShotWorld (some "shots") none "shots" true rfl (by decide) rfl

/-- C10: when both `--copy-to` and `--move-to` are supplied, the run is the
run with `--copy-to` alone — the move flag is silently ignored — and no move
(removal from the original location) is ever recorded. -/
theorem copy_to_wins_over_move_to (w : World) (c m : String) :
    runMain w (some c) (some m) = runMain w (some c) none
    ∧ ∀ n d, FsAction.moveFile n d ∉ (runMain w (some c) (some m)).actions := by
  refine ⟨rfl, ?_⟩
  intro n d
  cases hr : w.rootExists with
  | false => simp [runMain, hr]
  | true =>
    cases hne : (foundFiles w.entries).isEmpty with
    | true => simp [runMain, hr, hne]
    | false =>
      simp only [runMain, hr, hne, Bool.not_true, Bool.false_eq_true, if_false,
        resolveDest]
      exact transferFold_no_move w c n d ((foundFiles w.entries).map (fun f => f.name))
        ([], [FsAction.mkdirParents c]) (by simp)

/-- A world for the C10 witness: one matched screenshot that is actually
copied. -/
def bothFlagsWorld : World :=
  ⟨true, [⟨"Screenshot_1.png", true, none⟩], fun _ => false, fun _ => true⟩

/-- Witness for `copy_to_wins_over_move_to` at a concrete world with both
flags supplied. -/
theorem copy_to_wins_over_move_to_witness :
    runMain bothFlagsWorld (some "c") (some "m") = runMain bothFlagsWorld (some "c") none
    ∧ FsAction.moveFile "Screenshot_1.png" "m"
        ∉ (runMain bothFlagsWorld (some "c") (some "m")).actions :=
  ⟨(copy_to_wins_over_move_to bothFlagsWorld "c" "m").1,
   (copy_to_wins_over_move_to bothFlagsWorld "c" "m").2 "Screenshot_1.png" "m"⟩
